import Mathlib

/-!
Shallow embedding of the LinguaFlow backend (`src/main.py`): the translate
endpoint's caching / translation / telemetry orchestration, with the external
collaborators (Redis, the LLM chain, MLflow) modelled as explicit behaviours.
Machine integers are `Nat` with explicit `% 2^32` where the MD5 digest needs
32-bit wraparound.
-/

namespace LinguaFlow

/-! ## Text normalization (Python `str.strip().lower()` on lines 92) -/

/-- Python whitespace for `str.strip()`: space, tab, newline, CR, VT, FF. -/
def pyIsSpace (c : Char) : Bool :=
  c = ' ' || c = '\t' || c = '\n' || c = '\x0d' || c = '\x0b' || c = '\x0c'

/-- Python `str.strip()` on the character list: drop leading and trailing
whitespace. -/
def pyStripL (s : List Char) : List Char :=
  ((s.dropWhile pyIsSpace).reverse.dropWhile pyIsSpace).reverse

/-- Python `str.lower()` (modelled as ASCII case-fold, the "simple case-fold"
of the normalized inputs this service handles). -/
def pyLowerL (s : List Char) : List Char :=
  s.map Char.toLower

def pyStrip (s : String) : String := ⟨pyStripL s.data⟩

def pyLower (s : String) : String := ⟨pyLowerL s.data⟩

/-- Line 92: `clean_text = request.text.strip().lower()`. -/
def clean_text (text : String) : String := pyLower (pyStrip text)

/-! ## MD5 (`hashlib.md5(clean_text.encode()).hexdigest()`, line 93)

A direct executable implementation: UTF-8 encode, pad, 64 rounds per 512-bit
chunk over 32-bit words represented as `Nat` reduced mod `2^32`. -/

/-- UTF-8 encoding of one code point (Python `str.encode()` default). -/
def utf8Char (n : Nat) : List Nat :=
  if n < 0x80 then [n]
  else if n < 0x800 then [0xC0 + n / 0x40, 0x80 + n % 0x40]
  else if n < 0x10000 then
    [0xE0 + n / 0x1000, 0x80 + n / 0x40 % 0x40, 0x80 + n % 0x40]
  else
    [0xF0 + n / 0x40000, 0x80 + n / 0x1000 % 0x40, 0x80 + n / 0x40 % 0x40,
     0x80 + n % 0x40]

def utf8Bytes (s : String) : List Nat :=
  s.data.flatMap (fun c => utf8Char c.toNat)

def w32 : Nat := 4294967296

/-- 32-bit left rotate. -/
def rotl32 (x c : Nat) : Nat :=
  (x * 2 ^ c + x / 2 ^ (32 - c)) % w32

/-- 32-bit complement. -/
def not32 (x : Nat) : Nat := 4294967295 ^^^ x

/-- MD5 per-round constants `K[i] = floor(2^32 * |sin(i+1)|)`. -/
def md5K : List Nat :=
  [0xd76aa478, 0xe8c7b756, 0x242070db, 0xc1bdceee,
   0xf57c0faf, 0x4787c62a, 0xa8304613, 0xfd469501,
   0x698098d8, 0x8b44f7af, 0xffff5bb1, 0x895cd7be,
   0x6b901122, 0xfd987193, 0xa679438e, 0x49b40821,
   0xf61e2562, 0xc040b340, 0x265e5a51, 0xe9b6c7aa,
   0xd62f105d, 0x02441453, 0xd8a1e681, 0xe7d3fbc8,
   0x21e1cde6, 0xc33707d6, 0xf4d50d87, 0x455a14ed,
   0xa9e3e905, 0xfcefa3f8, 0x676f02d9, 0x8d2a4c8a,
   0xfffa3942, 0x8771f681, 0x6d9d6122, 0xfde5380c,
   0xa4beea44, 0x4bdecfa9, 0xf6bb4b60, 0xbebfbc70,
   0x289b7ec6, 0xeaa127fa, 0xd4ef3085, 0x04881d05,
   0xd9d4d039, 0xe6db99e5, 0x1fa27cf8, 0xc4ac5665,
   0xf4292244, 0x432aff97, 0xab9423a7, 0xfc93a039,
   0x655b59c3, 0x8f0ccc92, 0xffeff47d, 0x85845dd1,
   0x6fa87e4f, 0xfe2ce6e0, 0xa3014314, 0x4e0811a1,
   0xf7537e82, 0xbd3af235, 0x2ad7d2bb, 0xeb86d391]

/-- MD5 per-round shift amounts. -/
def md5S : List Nat :=
  [7, 12, 17, 22, 7, 12, 17, 22, 7, 12, 17, 22, 7, 12, 17, 22,
   5,  9, 14, 20, 5,  9, 14, 20, 5,  9, 14, 20, 5,  9, 14, 20,
   4, 11, 16, 23, 4, 11, 16, 23, 4, 11, 16, 23, 4, 11, 16, 23,
   6, 10, 15, 21, 6, 10, 15, 21, 6, 10, 15, 21, 6, 10, 15, 21]

/-- Message padding: append `0x80`, zero-fill to 56 mod 64, then the original
bit length as 8 little-endian bytes. -/
def md5Pad (msg : List Nat) : List Nat :=
  let bitLen := msg.length * 8
  let padLen := (55 + 64 - msg.length % 64) % 64
  msg ++ [0x80] ++ List.replicate padLen 0 ++
    (List.range 8).map (fun i => bitLen / 2 ^ (8 * i) % 256)

/-- Split the padded message into little-endian 32-bit words. -/
def toWords : List Nat → List Nat
  | b0 :: b1 :: b2 :: b3 :: rest =>
      (b0 + b1 * 256 + b2 * 65536 + b3 * 16777216) :: toWords rest
  | _ => []

/-- One MD5 operation: round `i` acting on the state `(a, b, c, d)` with chunk
words `m`. -/
def md5Op (m : List Nat) (i : Nat) (st : Nat × Nat × Nat × Nat) :
    Nat × Nat × Nat × Nat :=
  let (a, b, c, d) := st
  let (f, g) :=
    if i < 16 then ((b &&& c) ||| (not32 b &&& d), i)
    else if i < 32 then ((d &&& b) ||| (not32 d &&& c), (5 * i + 1) % 16)
    else if i < 48 then (b ^^^ c ^^^ d, (3 * i + 5) % 16)
    else (c ^^^ (b ||| not32 d), 7 * i % 16)
  let f := (f + a + md5K.getD i 0 + m.getD g 0) % w32
  (d, (b + rotl32 f (md5S.getD i 0)) % w32, b, c)

/-- Process one 16-word chunk through the 64 rounds and add into the running
digest state. -/
def md5Chunk (st : Nat × Nat × Nat × Nat) (m : List Nat) :
    Nat × Nat × Nat × Nat :=
  let (a0, b0, c0, d0) := st
  let (a, b, c, d) := (List.range 64).foldl (fun s i => md5Op m i s) st
  ((a0 + a) % w32, (b0 + b) % w32, (c0 + c) % w32, (d0 + d) % w32)

/-- Fold `md5Chunk` over the 16-word chunks of the padded message (whose
length is always a multiple of 16). Structural recursion so the kernel can
evaluate it. -/
def md5Chunks (st : Nat × Nat × Nat × Nat) : List Nat → Nat × Nat × Nat × Nat
  | w0 :: w1 :: w2 :: w3 :: w4 :: w5 :: w6 :: w7 ::
    w8 :: w9 :: w10 :: w11 :: w12 :: w13 :: w14 :: w15 :: rest =>
      md5Chunks
        (md5Chunk st
          [w0, w1, w2, w3, w4, w5, w6, w7, w8, w9, w10, w11, w12, w13, w14, w15])
        rest
  | _ => st

def hexDigit (n : Nat) : Char :=
  if n < 10 then Char.ofNat (48 + n) else Char.ofNat (87 + n)

/-- One 32-bit word as 8 hex chars, little-endian byte order (MD5 output
convention). -/
def wordHex (x : Nat) : List Char :=
  (List.range 4).flatMap
    (fun i => [hexDigit (x / 2 ^ (8 * i) / 16 % 16), hexDigit (x / 2 ^ (8 * i) % 16)])

/-- Model of `hashlib.md5(s.encode()).hexdigest()`. -/
def md5Hex (s : String) : String :=
  let (a, b, c, d) :=
    md5Chunks (0x67452301, 0xefcdab89, 0x98badcfe, 0x10325476)
      (toWords (md5Pad (utf8Bytes s)))
  ⟨wordHex a ++ wordHex b ++ wordHex c ++ wordHex d⟩

/-- Line 93: `text_hash = hashlib.md5(clean_text.encode()).hexdigest()`. -/
def text_hash (text : String) : String := md5Hex (clean_text text)

/-- Line 94: `cache_key = f"trans:{request.target_lang}:{text_hash}"`. -/
def cache_key (text target_lang : String) : String :=
  "trans:" ++ target_lang ++ ":" ++ text_hash text

/-- The spec's stated persisted-key format (§6): `"translation:{targetLang}:{digest-hex}"`,
with the same normalized-text md5 digest. Written from the spec's words, to be
compared with `cache_key` from the source. -/
def specCacheKey (text target_lang : String) : String :=
  "translation:" ++ target_lang ++ ":" ++ text_hash text

/-! ## The translate endpoint (lines 88–135)

External collaborators are explicit behaviours: the Redis client is an
interface whose operations either return (`Except.ok`) or raise
(`Except.error`), `chain.ainvoke` is a function that returns translated text
or raises, and wall-clock latency is an abstract `elapsed` value (the claims
never depend on the measured number). -/

/-- Lines 72–74 (`TranslationRequest`): `text` plus `target_lang` (the default
has already been applied by pydantic when the handler runs). -/
structure TranslationRequest where
  text : String
  target_lang : String
  deriving DecidableEq

/-- What the HTTP layer sees from one request: the success dict (lines
103–108 / 126–131), the `HTTPException(500, detail)` raised on line 135, or an
exception escaping the handler uncaught (possible only from the line-98
`redis_client.get`, which is outside the `try`). -/
inductive Response where
  | success (original translated : String) (latency_ms : Nat) (source : String)
  | httpError (status : Nat) (detail : String)
  | unhandled (detail : String)
  deriving DecidableEq

/-- Behaviour of a connected Redis client over cache states `σ`:
`get` returns a value or a miss, or raises; `setex` returns the updated state
or raises. -/
structure RedisClient (σ : Type) where
  get : σ → String → Except String (Option String)
  setex : σ → String → Nat → String → Except String σ

/-- Everything observable about one run of the handler: the response, the
final cache state, the telemetry tasks scheduled via
`background_tasks.add_task(log_to_mlflow, text, translation, latency)`, the
`setex` calls attempted (key, ttl, value), and how many times `chain.ainvoke`
ran. -/
structure Outcome (σ : Type) where
  response : Response
  state : σ
  tasks : List (String × String × Nat)
  setexCalls : List (String × Nat × String)
  invokerCalls : Nat
  deriving DecidableEq

/-- Lines 110–135: the API-call half of the handler, reached when the cache
is disabled or the lookup did not produce a truthy value. The whole block is
inside `try ... except Exception`: an `ainvoke` or `setex` exception becomes
`HTTPException(500, str(e))`. -/
def translate_api_call {σ : Type} (redis_client : Option (RedisClient σ))
    (st : σ) (ainvoke : String → String → Except String String)
    (elapsed : Nat) (request : TranslationRequest) (cacheKey : String) :
    Outcome σ :=
  match ainvoke request.target_lang request.text with
  | .error e => ⟨.httpError 500 e, st, [], [], 1⟩
  | .ok translated_text =>
    match redis_client with
    | some client =>
      match client.setex st cacheKey 86400 translated_text with
      | .error e =>
          ⟨.httpError 500 e, st, [], [(cacheKey, 86400, translated_text)], 1⟩
      | .ok st' =>
          ⟨.success request.text translated_text elapsed "api", st',
            [(request.text, translated_text, elapsed)],
            [(cacheKey, 86400, translated_text)], 1⟩
    | none =>
        ⟨.success request.text translated_text elapsed "api", st,
          [(request.text, translated_text, elapsed)], [], 1⟩

/-- Lines 88–135: the `/translate` handler. `redis_client` is `none` when the
startup connection failed (lines 52–57). The cache check mirrors
`if redis_client:` then `if cached_translation:` — note the latter is Python
truthiness, so an empty cached string falls through to the API call. The
line-98 `get` is *outside* the `try`, so a raising `get` escapes the handler. -/
def translate_text {σ : Type} (redis_client : Option (RedisClient σ))
    (st : σ) (ainvoke : String → String → Except String String)
    (elapsed : Nat) (request : TranslationRequest) : Outcome σ :=
  let cacheKey := cache_key request.text request.target_lang
  match redis_client with
  | some client =>
    match client.get st cacheKey with
    | .error e => ⟨.unhandled e, st, [], [], 0⟩
    | .ok (some cached_translation) =>
        if cached_translation = "" then
          translate_api_call redis_client st ainvoke elapsed request cacheKey
        else
          ⟨.success request.text cached_translation elapsed "cache", st,
            [(request.text, cached_translation, elapsed)], [], 0⟩
    | .ok none =>
        translate_api_call redis_client st ainvoke elapsed request cacheKey
  | none => translate_api_call redis_client st ainvoke elapsed request cacheKey

/-- The code's cache-miss condition at the line-98/99 check: the client is
absent, or `get` returned `None` or an empty (falsy) string. -/
def cacheMiss {σ : Type} (redis_client : Option (RedisClient σ)) (st : σ)
    (k : String) : Bool :=
  match redis_client with
  | none => true
  | some client =>
    match client.get st k with
    | .ok none => true
    | .ok (some v) => v == ""
    | .error _ => false

/-! ## A concrete timed cache state (Redis `GET` / `SETEX` semantics)

Used to run consecutive requests against a live store: entries carry an
absolute expiry instant; `GET` sees an entry only before its expiry; `SETEX`
replaces the entry and stamps expiry = now + ttl. -/

def TimedStore : Type := List (String × String × Nat)

instance : DecidableEq TimedStore := by
  unfold TimedStore
  infer_instance

/-- Redis `GET key` at instant `now`. -/
def tsGet (now : Nat) (s : TimedStore) (k : String) : Option String :=
  match s.find? (fun e => e.1 == k) with
  | some (_, v, expiry) => if now < expiry then some v else none
  | none => none

/-- Redis `SETEX key ttl value` at instant `now`. -/
def tsSetex (now : Nat) (s : TimedStore) (k : String) (ttl : Nat)
    (v : String) : TimedStore :=
  (k, v, now + ttl) :: s.filter (fun e => ¬(e.1 = k))

/-- A connected, healthy Redis client observed at instant `now`: operations
never raise. -/
def timedClient (now : Nat) : RedisClient TimedStore where
  get s k := .ok (tsGet now s k)
  setex s k ttl v := .ok (tsSetex now s k ttl v)

/-! ## `log_to_mlflow` (lines 77–86)

The MLflow backend is a behaviour whose four operations each either return or
raise; the function's `with mlflow.start_run(...)` context manager and outer
`try/except` are transcribed directly. The result is the trace of events plus
whether an exception propagated to the caller (the scheduler). -/

structure MlflowBehavior where
  start_run : Except String Unit
  log_param_text : Except String Unit
  log_metric_latency : Except String Unit
  log_param_translation : Except String Unit

inductive MlEvent where
  | runStarted
  | runEnded
  | paramLogged (name : String)
  | metricLogged (name : String)
  | diagPrinted (msg : String)
  deriving DecidableEq

/-- Lines 82–84: the body of the `with` block, stopping at the first raising
call. -/
def mlflowBody (m : MlflowBehavior) : List MlEvent × Except String Unit :=
  match m.log_param_text with
  | .error e => ([], .error e)
  | .ok _ =>
    match m.log_metric_latency with
    | .error e => ([.paramLogged "text"], .error e)
    | .ok _ =>
      match m.log_param_translation with
      | .error e => ([.paramLogged "text", .metricLogged "latency_ms"], .error e)
      | .ok _ =>
          ([.paramLogged "text", .metricLogged "latency_ms",
            .paramLogged "translation"], .ok ())

/-- Line 81: `with mlflow.start_run(run_name="manual_log"):` — if entering
raises, the body never runs; otherwise the run is ended on every exit of the
body, normal or exceptional, and the body's exception continues to propagate. -/
def withStartRun (m : MlflowBehavior) (body : List MlEvent × Except String Unit) :
    List MlEvent × Except String Unit :=
  match m.start_run with
  | .error e => ([], .error e)
  | .ok _ => (.runStarted :: body.1 ++ [.runEnded], body.2)

/-- Lines 77–86: `log_to_mlflow`. The outer `try/except Exception` turns any
escaped exception into a printed diagnostic; the function itself always
returns normally (`Except.ok`). -/
def log_to_mlflow (m : MlflowBehavior) : List MlEvent × Except String Unit :=
  match withStartRun m (mlflowBody m) with
  | (evs, .error e) =>
      (evs ++ [.diagPrinted ("Failed to log to MLflow: " ++ e)], .ok ())
  | (evs, .ok _) => (evs, .ok ())

/-! ## Concrete collaborator behaviours used in concrete runs -/

/-- A Redis connection that drops at call time: `get` raises. -/
def getRaisingClient : RedisClient Unit where
  get _ _ := .error "Redis ConnectionError"
  setex s _ _ _ := .ok s

/-- A Redis connection that answers `get` with a miss but raises on `setex`. -/
def setexRaisingClient : RedisClient Unit where
  get _ _ := .ok none
  setex _ _ _ _ := .error "Redis ConnectionError"

/-- An upstream model that always answers `"Bonjour"`. -/
def okInvoker : String → String → Except String String :=
  fun _ _ => .ok "Bonjour"

/-- An upstream model that always fails. -/
def failInvoker : String → String → Except String String :=
  fun _ _ => .error "upstream boom"

/-- An upstream model that answers the empty string (a legal `response.content`). -/
def emptyInvoker : String → String → Except String String :=
  fun _ _ => .ok ""

/-! ## Character and normalization lemmas -/

theorem char_toNat_inj {c d : Char} (h : c.toNat = d.toNat) : c = d :=
  Char.ext (UInt32.toNat.inj h)

theorem toNat_ofNat_valid (n : Nat) (h : n < 55296) : (Char.ofNat n).toNat = n := by
  have hv : n.isValidChar := Or.inl h
  simp [Char.ofNat, hv, Char.ofNatAux, Char.toNat, UInt32.toNat]

theorem toLower_toNat (c : Char) :
    (Char.toLower c).toNat =
      if 65 ≤ c.toNat ∧ c.toNat ≤ 90 then c.toNat + 32 else c.toNat := by
  unfold Char.toLower
  split
  · rw [if_pos (by omega)]
    exact toNat_ofNat_valid _ (by omega)
  · rw [if_neg (by omega)]

theorem toLower_toLower (c : Char) :
    Char.toLower (Char.toLower c) = Char.toLower c := by
  apply char_toNat_inj
  rw [toLower_toNat]
  have h := toLower_toNat c
  split at h <;> rw [if_neg (by omega)]

theorem pyIsSpace_iff (c : Char) :
    pyIsSpace c = true ↔ (c.toNat = 32 ∨ c.toNat = 9 ∨ c.toNat = 10 ∨
      c.toNat = 13 ∨ c.toNat = 11 ∨ c.toNat = 12) := by
  unfold pyIsSpace
  simp only [Bool.or_eq_true, decide_eq_true_eq, or_assoc]
  constructor
  · rintro (rfl | rfl | rfl | rfl | rfl | rfl) <;> decide
  · rintro (h | h | h | h | h | h)
    · exact Or.inl (char_toNat_inj (by rw [h]; decide))
    · exact Or.inr (Or.inl (char_toNat_inj (by rw [h]; decide)))
    · exact Or.inr (Or.inr (Or.inl (char_toNat_inj (by rw [h]; decide))))
    · exact Or.inr (Or.inr (Or.inr (Or.inl (char_toNat_inj (by rw [h]; decide)))))
    · exact Or.inr (Or.inr (Or.inr (Or.inr (Or.inl (char_toNat_inj (by rw [h]; decide))))))
    · exact Or.inr (Or.inr (Or.inr (Or.inr (Or.inr (char_toNat_inj (by rw [h]; decide))))))

theorem pyIsSpace_toLower (c : Char) :
    pyIsSpace (Char.toLower c) = pyIsSpace c := by
  rw [Bool.eq_iff_iff, pyIsSpace_iff, pyIsSpace_iff]
  have h := toLower_toNat c
  split at h <;> omega

theorem pyStripL_eq (s : List Char) :
    pyStripL s = List.rdropWhile pyIsSpace (List.dropWhile pyIsSpace s) := rfl

theorem dropWhile_rdropWhile_dropWhile (p : Char → Bool) (s : List Char) :
    List.dropWhile p (List.rdropWhile p (List.dropWhile p s)) =
      List.rdropWhile p (List.dropWhile p s) := by
  rcases h : List.rdropWhile p (List.dropWhile p s) with _ | ⟨a, rest⟩
  · simp
  · have hpre := List.rdropWhile_prefix p (List.dropWhile p s)
    rw [h] at hpre
    obtain ⟨r, hr⟩ := hpre
    have hh : (List.dropWhile p s).head? = some a := by
      rw [← hr]
      simp
    have hna := List.head?_dropWhile_not p s
    rw [hh] at hna
    simp [List.dropWhile_cons, hna]

theorem pyStripL_idem (s : List Char) : pyStripL (pyStripL s) = pyStripL s := by
  rw [pyStripL_eq s, pyStripL_eq, dropWhile_rdropWhile_dropWhile,
    List.rdropWhile_idempotent]

theorem pyStripL_pyLowerL (s : List Char) :
    pyStripL (pyLowerL s) = pyLowerL (pyStripL s) := by
  have hp : (pyIsSpace ∘ Char.toLower) = pyIsSpace := funext pyIsSpace_toLower
  unfold pyStripL pyLowerL
  simp [List.dropWhile_map, hp, ← List.map_reverse]

theorem pyLowerL_idem (s : List Char) : pyLowerL (pyLowerL s) = pyLowerL s := by
  unfold pyLowerL
  rw [List.map_map]
  exact List.map_congr_left fun c _ => toLower_toLower c

theorem cleanL_idem (s : List Char) :
    pyLowerL (pyStripL (pyLowerL (pyStripL s))) = pyLowerL (pyStripL s) := by
  rw [pyStripL_pyLowerL, pyLowerL_idem, pyStripL_idem]

/-- Normalization (line 92) is idempotent: stripping and lowercasing an
already-normalized text changes nothing. -/
theorem clean_text_idem (text : String) :
    clean_text (pyLower (pyStrip text)) = clean_text text := by
  unfold clean_text pyLower pyStrip
  exact congrArg String.mk (cleanL_idem text.data)

/-! ## Path lemmas for the translate handler -/

/-- If the line-98 `get` raises, the exception escapes the handler: no API
call, no write, no telemetry. -/
theorem translate_get_raise {σ : Type} (client : RedisClient σ) (st : σ)
    (ainvoke : String → String → Except String String) (elapsed : Nat)
    (request : TranslationRequest) (e : String)
    (hget : client.get st (cache_key request.text request.target_lang) = .error e) :
    translate_text (some client) st ainvoke elapsed request =
      ⟨.unhandled e, st, [], [], 0⟩ := by
  simp [translate_text, hget]

/-- The cache-hit path (lines 99–108): a truthy cached value is returned as
`source = "cache"` with one telemetry task, no API call and no write. -/
theorem translate_hit {σ : Type} (client : RedisClient σ) (st : σ)
    (ainvoke : String → String → Except String String) (elapsed : Nat)
    (request : TranslationRequest) (v : String)
    (hget : client.get st (cache_key request.text request.target_lang) = .ok (some v))
    (hv : v ≠ "") :
    translate_text (some client) st ainvoke elapsed request =
      ⟨.success request.text v elapsed "cache", st,
        [(request.text, v, elapsed)], [], 0⟩ := by
  simp [translate_text, hget, hv]

/-- The miss-then-failure path (lines 111–135): the invoker's exception is
caught and surfaced as a 500, with no write and no telemetry. -/
theorem translate_miss_err {σ : Type} (redis_client : Option (RedisClient σ))
    (st : σ) (ainvoke : String → String → Except String String) (elapsed : Nat)
    (request : TranslationRequest) (e : String)
    (hmiss : cacheMiss redis_client st (cache_key request.text request.target_lang) = true)
    (herr : ainvoke request.target_lang request.text = .error e) :
    translate_text redis_client st ainvoke elapsed request =
      ⟨.httpError 500 e, st, [], [], 1⟩ := by
  rcases redis_client with _ | client
  · simp [translate_text, translate_api_call, herr]
  · rcases hget : client.get st (cache_key request.text request.target_lang) with e' | ov
    · simp [cacheMiss, hget] at hmiss
    · rcases ov with _ | v
      · simp [translate_text, translate_api_call, hget, herr]
      · simp [cacheMiss, hget] at hmiss
        simp [translate_text, translate_api_call, hget, hmiss, herr]

/-- The miss-then-success path (lines 111–131) with a healthy `setex`: the
translation is written under the computed key with ttl 86400 and returned as
`source = "api"`, with one telemetry task. -/
theorem translate_miss_ok {σ : Type} (client : RedisClient σ) (st : σ)
    (ainvoke : String → String → Except String String) (elapsed : Nat)
    (request : TranslationRequest) (v : String) (st' : σ)
    (hmiss : cacheMiss (some client) st (cache_key request.text request.target_lang) = true)
    (hok : ainvoke request.target_lang request.text = .ok v)
    (hset : client.setex st (cache_key request.text request.target_lang) 86400 v = .ok st') :
    translate_text (some client) st ainvoke elapsed request =
      ⟨.success request.text v elapsed "api", st',
        [(request.text, v, elapsed)],
        [(cache_key request.text request.target_lang, 86400, v)], 1⟩ := by
  rcases hget : client.get st (cache_key request.text request.target_lang) with e' | ov
  · simp [cacheMiss, hget] at hmiss
  · rcases ov with _ | w
    · simp [translate_text, translate_api_call, hget, hok, hset]
    · simp [cacheMiss, hget] at hmiss
      simp [translate_text, translate_api_call, hget, hmiss, hok, hset]

/-- The miss-then-success path when `setex` raises (line 119 inside the
`try`): the write is attempted, the exception is caught by the generic
handler, and the caller gets a 500 — the successful translation is lost. -/
theorem translate_miss_setex_raise {σ : Type} (client : RedisClient σ) (st : σ)
    (ainvoke : String → String → Except String String) (elapsed : Nat)
    (request : TranslationRequest) (v : String) (e : String)
    (hmiss : cacheMiss (some client) st (cache_key request.text request.target_lang) = true)
    (hok : ainvoke request.target_lang request.text = .ok v)
    (hset : client.setex st (cache_key request.text request.target_lang) 86400 v = .error e) :
    translate_text (some client) st ainvoke elapsed request =
      ⟨.httpError 500 e, st, [],
        [(cache_key request.text request.target_lang, 86400, v)], 1⟩ := by
  rcases hget : client.get st (cache_key request.text request.target_lang) with e' | ov
  · simp [cacheMiss, hget] at hmiss
  · rcases ov with _ | w
    · simp [translate_text, translate_api_call, hget, hok, hset]
    · simp [cacheMiss, hget] at hmiss
      simp [translate_text, translate_api_call, hget, hmiss, hok, hset]

/-- Two successful `GET`s of the same key at different instants see the same
stored value. -/
theorem tsGet_value_agree {t1 t2 : Nat} {s : TimedStore} {k v w : String}
    (h1 : tsGet t1 s k = some v) (h2 : tsGet t2 s k = some w) : w = v := by
  unfold tsGet at h1 h2
  rcases hfind : s.find? (fun e => e.1 == k) with _ | ⟨k', v', e'⟩
  · rw [hfind] at h1
    simp at h1
  · rw [hfind] at h1 h2
    simp only [Option.ite_none_right_eq_some, Option.some_inj] at h1 h2
    exact h2.2.symm.trans h1.2

/-- A `SETEX` followed by a `GET` of the same key sees the new value exactly
until its expiry. -/
theorem tsGet_tsSetex_same (t1 t2 ttl : Nat) (s : TimedStore) (k v : String) :
    tsGet t2 (tsSetex t1 s k ttl v) k =
      if t2 < t1 + ttl then some v else none := by
  unfold tsGet tsSetex
  simp

/-- C6: for every text `T` and language `L`,
`fingerprint(T, L) == fingerprint(trim(T).lower(), L)` — the cache key of
lines 92–94 is invariant under trimming and lowercasing of the input text, so
case and whitespace variants of the same text map to the same cache key. -/
theorem C6_fingerprint_normalization (T L : String) :
    cache_key T L = cache_key (pyLower (pyStrip T)) L := by
  unfold cache_key text_hash
  rw [clean_text_idem]

/-- C10: the target language is embedded verbatim in the cache key: any two
distinct `target_lang` values — in particular values differing only in case or
surrounding whitespace — produce distinct cache keys for the same text. -/
theorem C10_target_lang_verbatim (T L1 L2 : String) (h : L1 ≠ L2) :
    cache_key T L1 ≠ cache_key T L2 := by
  intro heq
  apply h
  unfold cache_key at heq
  have hdata := congrArg String.data heq
  simp only [String.data_append, List.append_assoc] at hdata
  have := List.append_cancel_left hdata
  have := List.append_cancel_right this
  exact congrArg String.mk this

/-- Witness for C10 at a concrete input: `"French"` and `"french"` differ only
in case and give different keys. -/
theorem C10_target_lang_verbatim_witness :
    cache_key "Hello" "French" ≠ cache_key "Hello" "french" :=
  C10_target_lang_verbatim "Hello" "French" "french" (by decide)

/-- C8: `log_to_mlflow` (lines 77–86) never propagates an exception to its
caller, and the `with mlflow.start_run` session is ended exactly as many times
as it is started on every exit path, including when the MLflow backend itself
throws. -/
theorem C8_telemetry_isolation (m : MlflowBehavior) :
    (log_to_mlflow m).2 = .ok () ∧
      ((log_to_mlflow m).1.count .runEnded = (log_to_mlflow m).1.count .runStarted) := by
  obtain ⟨sr, p1, mt, p2⟩ := m
  cases sr <;> cases p1 <;> cases mt <;> cases p2 <;>
    simp [log_to_mlflow, withStartRun, mlflowBody, List.count_cons]

/-- C1 (counterexample to the claim as stated): with a client whose `get`
raises at call time, the request does not proceed as a cache miss — the
invoker is never called and the exception escapes the handler; with a client
whose `setex` raises after a successful translation, the failure is not
swallowed — the caller gets a 500 instead of the successful result. -/
theorem C1_cex :
    (translate_text (some getRaisingClient) () okInvoker 0 ⟨"Hello", "French"⟩).response =
        .unhandled "Redis ConnectionError" ∧
    (translate_text (some getRaisingClient) () okInvoker 0 ⟨"Hello", "French"⟩).invokerCalls = 0 ∧
    (translate_text (some setexRaisingClient) () okInvoker 0 ⟨"Hello", "French"⟩).response =
        .httpError 500 "Redis ConnectionError" ∧
    (translate_text (some setexRaisingClient) () okInvoker 0 ⟨"Hello", "French"⟩).tasks = [] :=
  ⟨rfl, rfl, rfl, rfl⟩

/-- C1 (amended): only a failure at startup disables caching silently. At
call time, a raising `get` (line 98, outside the `try`) escapes the handler
with no invoker call, no write and no telemetry; a raising `setex` after a
successful translation (line 119, inside the `try`) is caught by the generic
handler and surfaced as a 500 server error — the successful TranslationResult
is not returned. -/
theorem C1_call_time_cache_failures {σ : Type} (client : RedisClient σ)
    (st : σ) (ainvoke : String → String → Except String String)
    (elapsed : Nat) (request : TranslationRequest) :
    (∀ e, client.get st (cache_key request.text request.target_lang) = .error e →
      translate_text (some client) st ainvoke elapsed request =
        ⟨.unhandled e, st, [], [], 0⟩) ∧
    (∀ e v, cacheMiss (some client) st (cache_key request.text request.target_lang) = true →
      ainvoke request.target_lang request.text = .ok v →
      client.setex st (cache_key request.text request.target_lang) 86400 v = .error e →
      translate_text (some client) st ainvoke elapsed request =
        ⟨.httpError 500 e, st, [],
          [(cache_key request.text request.target_lang, 86400, v)], 1⟩) :=
  ⟨fun e hget => translate_get_raise client st ainvoke elapsed request e hget,
   fun e v hmiss hok hset =>
     translate_miss_setex_raise client st ainvoke elapsed request v e hmiss hok hset⟩

/-- Witness for C1 (amended) at concrete raising clients. -/
theorem C1_call_time_cache_failures_witness :
    translate_text (some getRaisingClient) () okInvoker 0 ⟨"Hello", "French"⟩ =
      ⟨.unhandled "Redis ConnectionError", (), [], [], 0⟩ ∧
    translate_text (some setexRaisingClient) () okInvoker 0 ⟨"Hello", "French"⟩ =
      ⟨.httpError 500 "Redis ConnectionError", (), [],
        [(cache_key "Hello" "French", 86400, "Bonjour")], 1⟩ :=
  ⟨(C1_call_time_cache_failures getRaisingClient () okInvoker 0 ⟨"Hello", "French"⟩).1
      "Redis ConnectionError" rfl,
   (C1_call_time_cache_failures setexRaisingClient () okInvoker 0 ⟨"Hello", "French"⟩).2
      "Redis ConnectionError" "Bonjour" rfl rfl rfl⟩

/-- C2 (counterexample to the claim as stated): the write on a cache miss
uses the prefix `"trans:"` of line 94, not the `"translation:"` format the
spec states. -/
theorem C2_cex :
    (translate_text (some (timedClient 0)) ([] : TimedStore) okInvoker 5
        ⟨"Hello", "French"⟩).setexCalls =
      [("trans:French:5d41402abc4b2a76b9719d911017c592", 86400, "Bonjour")] ∧
    specCacheKey "Hello" "French" =
      "translation:French:5d41402abc4b2a76b9719d911017c592" ∧
    (("trans:French:5d41402abc4b2a76b9719d911017c592" : String) ==
      "translation:French:5d41402abc4b2a76b9719d911017c592") = false := by
  refine ⟨by decide, by decide, by decide⟩

/-- C2 (amended): every cache write performed on a cache miss after a
successful translation uses the key `"trans:{target_lang}:{md5-hex}"` with the
md5 digest of the trimmed, lowercased text, stores the raw translated text,
and sets an expiry of 86400 seconds. -/
theorem C2_cache_write_format {σ : Type} (client : RedisClient σ) (st : σ)
    (ainvoke : String → String → Except String String) (elapsed : Nat)
    (request : TranslationRequest) (v : String)
    (hmiss : cacheMiss (some client) st (cache_key request.text request.target_lang) = true)
    (hok : ainvoke request.target_lang request.text = .ok v) :
    (translate_text (some client) st ainvoke elapsed request).setexCalls =
      [("trans:" ++ request.target_lang ++ ":" ++
          md5Hex (pyLower (pyStrip request.text)), 86400, v)] := by
  rcases hset : client.setex st (cache_key request.text request.target_lang) 86400 v
    with e | st'
  · rw [translate_miss_setex_raise client st ainvoke elapsed request v e hmiss hok hset]
    rfl
  · rw [translate_miss_ok client st ainvoke elapsed request v st' hmiss hok hset]
    rfl

/-- Witness for C2 (amended) on a concrete run. -/
theorem C2_cache_write_format_witness :
    cacheMiss (some (timedClient 0)) ([] : TimedStore) (cache_key "Hello" "French") = true ∧
    (translate_text (some (timedClient 0)) ([] : TimedStore) okInvoker 5
        ⟨"Hello", "French"⟩).setexCalls =
      [("trans:" ++ "French" ++ ":" ++ md5Hex (pyLower (pyStrip "Hello")), 86400, "Bonjour")] :=
  ⟨by decide,
   C2_cache_write_format (timedClient 0) [] okInvoker 5 ⟨"Hello", "French"⟩ "Bonjour"
     (by decide) rfl⟩

/-- C3: if the Translation Invoker fails on a cache-miss request, there is no
cache write, no telemetry task, and the caller receives a 500 carrying the
underlying error message — never a success result. -/
theorem C3_invoker_failure {σ : Type} (redis_client : Option (RedisClient σ))
    (st : σ) (ainvoke : String → String → Except String String) (elapsed : Nat)
    (request : TranslationRequest) (e : String)
    (hmiss : cacheMiss redis_client st (cache_key request.text request.target_lang) = true)
    (herr : ainvoke request.target_lang request.text = .error e) :
    translate_text redis_client st ainvoke elapsed request =
      ⟨.httpError 500 e, st, [], [], 1⟩ :=
  translate_miss_err redis_client st ainvoke elapsed request e hmiss herr

/-- Witness for C3 on a concrete failing run. -/
theorem C3_invoker_failure_witness :
    cacheMiss (none : Option (RedisClient TimedStore)) [] (cache_key "Hello" "French") = true ∧
    translate_text (none : Option (RedisClient TimedStore)) [] failInvoker 3
        ⟨"Hello", "French"⟩ =
      ⟨.httpError 500 "upstream boom", [], [], [], 1⟩ :=
  ⟨rfl, C3_invoker_failure none [] failInvoker 3 ⟨"Hello", "French"⟩ "upstream boom" rfl rfl⟩

/-- C4 (counterexample to the claim as stated): if the cached value is the
empty string — an entry that is present and unexpired — the second call falls
through Python's truthiness check `if cached_translation:` (line 99), invokes
the translator again and reports `source = "api"`, not `"cache"`. -/
theorem C4_cex :
    tsGet 1 (translate_text (some (timedClient 0)) ([] : TimedStore) emptyInvoker 0
        ⟨"a", "F"⟩).state (cache_key "a" "F") = some "" ∧
    (translate_text (some (timedClient 1))
        (translate_text (some (timedClient 0)) ([] : TimedStore) emptyInvoker 0
          ⟨"a", "F"⟩).state emptyInvoker 0 ⟨"a", "F"⟩).invokerCalls = 1 ∧
    (translate_text (some (timedClient 1))
        (translate_text (some (timedClient 0)) ([] : TimedStore) emptyInvoker 0
          ⟨"a", "F"⟩).state emptyInvoker 0 ⟨"a", "F"⟩).response =
      .success "a" "" 0 "api" := by
  refine ⟨by decide, by decide, by decide⟩

/-- C4 (amended): if the first call succeeds with a non-empty translated
value and the entry for the key is still present and unexpired when the
second call runs, the second call returns the identical value, reports
`source = "cache"`, and does not invoke the translator at all. -/
theorem C4_warm_cache (s : TimedStore) (t1 t2 e1 e2 : Nat)
    (ainvoke : String → String → Except String String)
    (T L orig v src w : String) (lat : Nat)
    (h1 : (translate_text (some (timedClient t1)) s ainvoke e1 ⟨T, L⟩).response =
      .success orig v lat src)
    (hv : v ≠ "")
    (h2 : tsGet t2 (translate_text (some (timedClient t1)) s ainvoke e1 ⟨T, L⟩).state
      (cache_key T L) = some w) :
    w = v ∧
    translate_text (some (timedClient t2))
        (translate_text (some (timedClient t1)) s ainvoke e1 ⟨T, L⟩).state
        ainvoke e2 ⟨T, L⟩ =
      ⟨.success T v e2 "cache",
        (translate_text (some (timedClient t1)) s ainvoke e1 ⟨T, L⟩).state,
        [(T, v, e2)], [], 0⟩ := by
  by_cases hc : ∃ c, tsGet t1 s (cache_key T L) = some c ∧ c ≠ ""
  · obtain ⟨c, hgetc, hcne⟩ := hc
    have ho1 := translate_hit (timedClient t1) s ainvoke e1 ⟨T, L⟩ c
      (by simp [timedClient, hgetc]) hcne
    rw [ho1] at h1 h2
    simp only [Response.success.injEq] at h1
    obtain ⟨-, hcv, -, -⟩ := h1
    have h2' : tsGet t2 s (cache_key T L) = some w := h2
    have hwc : w = c := tsGet_value_agree hgetc h2'
    refine ⟨hwc.trans hcv, ?_⟩
    rw [ho1]
    have ho2 := translate_hit (timedClient t2) s ainvoke e2 ⟨T, L⟩ c
      (by simp only [timedClient]; rw [h2', hwc]) hcne
    rw [ho2, hcv]
  · have hmiss : cacheMiss (some (timedClient t1)) s (cache_key T L) = true := by
      push_neg at hc
      rcases hget : tsGet t1 s (cache_key T L) with _ | c
      · simp [cacheMiss, timedClient, hget]
      · have hce := hc c hget
        simp [cacheMiss, timedClient, hget, hce]
    rcases hinv : ainvoke L T with err | tv
    · have ho1 := translate_miss_err (some (timedClient t1)) s ainvoke e1 ⟨T, L⟩ err hmiss hinv
      rw [ho1] at h1
      simp at h1
    · have hset : (timedClient t1).setex s (cache_key T L) 86400 tv =
        .ok (tsSetex t1 s (cache_key T L) 86400 tv) := rfl
      have ho1 := translate_miss_ok (timedClient t1) s ainvoke e1 ⟨T, L⟩ tv _ hmiss hinv hset
      rw [ho1] at h1 h2
      simp only [Response.success.injEq] at h1
      obtain ⟨-, htv, -, -⟩ := h1
      rw [tsGet_tsSetex_same] at h2
      rw [Option.ite_none_right_eq_some, Option.some_inj] at h2
      obtain ⟨ht2, hwtv⟩ := h2
      refine ⟨hwtv.symm.trans htv, ?_⟩
      rw [ho1]
      have hget2 : tsGet t2 (tsSetex t1 s (cache_key T L) 86400 tv) (cache_key T L) =
          some tv := by
        rw [tsGet_tsSetex_same, if_pos ht2]
      have ho2 := translate_hit (timedClient t2) (tsSetex t1 s (cache_key T L) 86400 tv)
        ainvoke e2 ⟨T, L⟩ tv (by simp [timedClient, hget2]) (htv ▸ hv)
      rw [ho2, htv]

/-- Witness for C4 (amended) on a concrete pair of consecutive calls. -/
theorem C4_warm_cache_witness :
    (translate_text (some (timedClient 0)) ([] : TimedStore) okInvoker 5
        ⟨"Hello", "French"⟩).response = .success "Hello" "Bonjour" 5 "api" ∧
    ("Bonjour" : String) ≠ "" ∧
    ("Bonjour" = "Bonjour" ∧
      translate_text (some (timedClient 100))
          (translate_text (some (timedClient 0)) ([] : TimedStore) okInvoker 5
            ⟨"Hello", "French"⟩).state okInvoker 7 ⟨"Hello", "French"⟩ =
        ⟨.success "Hello" "Bonjour" 7 "cache",
          (translate_text (some (timedClient 0)) ([] : TimedStore) okInvoker 5
            ⟨"Hello", "French"⟩).state,
          [("Hello", "Bonjour", 7)], [], 0⟩) :=
  ⟨by decide, by decide,
   C4_warm_cache [] 0 100 5 7 okInvoker "Hello" "French" "Hello" "Bonjour" "api" "Bonjour" 5
     (by decide) (by decide) (by decide)⟩

/-- C5: with the Cache Store disabled (`redis_client = None`, lines 55–57),
every call skips lookup and write, leaves no state change, invokes the
translator exactly once (so repeated identical calls each invoke it again),
never lets an exception escape the handler, and returns `source = "api"`
whenever the invoker succeeds. -/
theorem C5_cache_disabled {σ : Type} (st : σ)
    (ainvoke : String → String → Except String String) (elapsed : Nat)
    (request : TranslationRequest) :
    (translate_text (σ := σ) none st ainvoke elapsed request).setexCalls = [] ∧
    (translate_text (σ := σ) none st ainvoke elapsed request).state = st ∧
    (translate_text (σ := σ) none st ainvoke elapsed request).invokerCalls = 1 ∧
    (∀ d, (translate_text (σ := σ) none st ainvoke elapsed request).response ≠
      .unhandled d) ∧
    ∀ v, ainvoke request.target_lang request.text = .ok v →
      (translate_text (σ := σ) none st ainvoke elapsed request).response =
        .success request.text v elapsed "api" := by
  rcases hinv : ainvoke request.target_lang request.text with e | v <;>
    simp [translate_text, translate_api_call, hinv]

/-- Witness for C5 on a concrete cache-disabled run. -/
theorem C5_cache_disabled_witness :
    (translate_text (σ := TimedStore) none [] okInvoker 3 ⟨"Hi", "Spanish"⟩).response =
      .success "Hi" "Bonjour" 3 "api" :=
  (C5_cache_disabled [] okInvoker 3 ⟨"Hi", "Spanish"⟩).2.2.2.2 "Bonjour" rfl

/-- C7 (counterexample to the claim as stated): on the invoker-failure path —
one of the execution paths the claim quantifies over — the request yields an
error response rather than a TranslationResult and schedules zero telemetry
tasks, not exactly one. -/
theorem C7_cex :
    (translate_text (none : Option (RedisClient TimedStore)) [] failInvoker 0
        ⟨"Hello", "French"⟩).tasks.length = 0 ∧
    (translate_text (none : Option (RedisClient TimedStore)) [] failInvoker 0
        ⟨"Hello", "French"⟩).response = .httpError 500 "upstream boom" :=
  ⟨rfl, rfl⟩

/-- C7 (amended): over all execution paths a request attempts at most one
cache write and schedules at most one telemetry task, and it schedules
exactly one telemetry task precisely when it returns a success
TranslationResult (cache hit, or miss with successful translation and
non-raising write); the invoker-failure path yields an error response, no
write and no telemetry. -/
theorem C7_response_and_effects {σ : Type} (redis_client : Option (RedisClient σ))
    (st : σ) (ainvoke : String → String → Except String String) (elapsed : Nat)
    (request : TranslationRequest) :
    (translate_text redis_client st ainvoke elapsed request).setexCalls.length ≤ 1 ∧
    (translate_text redis_client st ainvoke elapsed request).tasks.length ≤ 1 ∧
    ((∃ o tr l src, (translate_text redis_client st ainvoke elapsed request).response =
        .success o tr l src) ↔
      (translate_text redis_client st ainvoke elapsed request).tasks.length = 1) := by
  rcases redis_client with _ | client
  · rcases hinv : ainvoke request.target_lang request.text with e | v <;>
      simp [translate_text, translate_api_call, hinv]
  · rcases hget : client.get st (cache_key request.text request.target_lang) with e | ov
    · simp [translate_text, hget]
    · rcases ov with _ | wv
      · rcases hinv : ainvoke request.target_lang request.text with e | v
        · simp [translate_text, translate_api_call, hget, hinv]
        · rcases hset : client.setex st (cache_key request.text request.target_lang) 86400 v
            with e | st' <;>
            simp [translate_text, translate_api_call, hget, hinv, hset]
      · by_cases hw : wv = ""
        · subst hw
          rcases hinv : ainvoke request.target_lang request.text with e | v
          · simp [translate_text, translate_api_call, hget, hinv]
          · rcases hset : client.setex st (cache_key request.text request.target_lang) 86400 v
              with e | st' <;>
              simp [translate_text, translate_api_call, hget, hinv, hset]
        · simp [translate_text, hget, hw]

/-- C9: on a cache hit the handler performs no `setex`, leaves the store
state — every entry's value and expiry instant — unchanged, and returns the
cached value; an entry therefore still expires 86400 seconds after its
original write no matter how many hits it serves. -/
theorem C9_cache_hit_no_write (t : Nat) (s : TimedStore)
    (ainvoke : String → String → Except String String) (elapsed : Nat)
    (T L v : String)
    (hhit : tsGet t s (cache_key T L) = some v) (hv : v ≠ "") :
    translate_text (some (timedClient t)) s ainvoke elapsed ⟨T, L⟩ =
      ⟨.success T v elapsed "cache", s, [(T, v, elapsed)], [], 0⟩ :=
  translate_hit (timedClient t) s ainvoke elapsed ⟨T, L⟩ v
    (by simp [timedClient, hhit]) hv

/-- Witness for C9 on a concrete warm store. -/
theorem C9_cache_hit_no_write_witness :
    tsGet 5 [(cache_key "Hello" "French", "Bonjour", 86400)] (cache_key "Hello" "French") =
      some "Bonjour" ∧
    translate_text (some (timedClient 5)) [(cache_key "Hello" "French", "Bonjour", 86400)]
        okInvoker 2 ⟨"Hello", "French"⟩ =
      ⟨.success "Hello" "Bonjour" 2 "cache",
        [(cache_key "Hello" "French", "Bonjour", 86400)], [("Hello", "Bonjour", 2)], [], 0⟩ :=
  ⟨by decide,
   C9_cache_hit_no_write 5 [(cache_key "Hello" "French", "Bonjour", 86400)] okInvoker 2
     "Hello" "French" "Bonjour" (by decide) (by decide)⟩

end LinguaFlow
